import Mathlib

/-!
Shallow embedding of `mjai/bot/base.py` (class `Bot`): the reactive mjai
client's decision loop, legality accessors, action serialization and tile
notation listing.  The external rules engine (`mlibriichi`), the JSON parser
and the efficiency search are collaborators outside this repository; they are
modelled as explicit function parameters, and the `PlayerState` record is
modelled from the spec's data model (§3/§4.3): a 34-slot tile-count vector,
three red-five flags, the optional last self-drawn tile, the optional last
observed discard, and a brief-info summary string.
-/

namespace Mjai

/-- Failure values raised inside the bot.  `assertionFailed` models a Python
`assert` failing (a precondition / programmer error), `valueError` models
`ValueError` (including JSON decode errors and the explicit
`ValueError("Empty events")`), and `engineError` models a failure surfaced by
the external rules engine. -/
inductive Err where
  | assertionFailed : Err
  | valueError : String → Err
  | engineError : String → Err
  deriving DecidableEq, Repr

/-- Python `str(e)` of an exception, as printed by `react`'s handler.
`str(AssertionError())` is the empty string. -/
def Err.msg : Err → String
  | .assertionFailed => ""
  | .valueError m => m
  | .engineError m => m

/-- Snapshot of currently legal actions, returned by every state update
(external value object; fields are exactly the flags the accessors read). -/
structure ActionCandidate where
  can_discard : Bool
  can_riichi : Bool
  can_agari : Bool
  can_tsumo_agari : Bool
  can_ron_agari : Bool
  can_ryukyoku : Bool
  can_kakan : Bool
  can_daiminkan : Bool
  can_kan : Bool
  can_ankan : Bool
  can_pon : Bool
  can_chi : Bool
  can_chi_low : Bool
  can_chi_mid : Bool
  can_chi_high : Bool
  can_act : Bool
  can_pass : Bool
  target_actor : Int
  deriving DecidableEq, Repr

/-- Modelled from the spec: the external rules engine's per-seat state view
(the engine itself is not part of this repository).  `tehai` is the 34-slot
tile-count vector, `akas_in_hand` the three red-five flags, `last_self_tsumo`
the most recent self-drawn tile (`none` when no draw has occurred, in which
case querying it fails), `last_kawa_tile` the most recent observed discard,
and `brief_info` the summary string printed on errors. -/
structure PlayerState where
  tehai : List Nat
  akas_in_hand : List Bool
  last_self_tsumo : Option String
  last_kawa_tile : Option String
  brief_info : String
  deriving DecidableEq, Repr

/-- Events are opaque to the bot beyond being forwarded one at a time to the
engine's update; we model them as their wire text. -/
structure Event where
  raw : String
  deriving DecidableEq, Repr

/-- The bot's own fields, as set up in `Bot.__init__`. -/
structure Bot where
  player_id : Int
  player_state : PlayerState
  action_candidate : Option ActionCandidate
  deriving DecidableEq, Repr

/-- `Bot.__init__(player_id)`: store the seat id, construct a fresh engine
state for that seat (`mkPS` stands for the external `PlayerState(player_id)`
constructor), and start with no action-candidate snapshot. -/
def Bot.init (mkPS : Int → PlayerState) (pid : Int) : Bot :=
  { player_id := pid, player_state := mkPS pid, action_candidate := none }

/-! ### Action-candidate accessors (each guarded by `assert ... is not None`) -/

def Bot.can_discard (b : Bot) : Except Err Bool :=
  match b.action_candidate with
  | none => .error .assertionFailed
  | some ac => .ok ac.can_discard

def Bot.can_riichi (b : Bot) : Except Err Bool :=
  match b.action_candidate with
  | none => .error .assertionFailed
  | some ac => .ok ac.can_riichi

def Bot.can_agari (b : Bot) : Except Err Bool :=
  match b.action_candidate with
  | none => .error .assertionFailed
  | some ac => .ok ac.can_agari

def Bot.can_tsumo_agari (b : Bot) : Except Err Bool :=
  match b.action_candidate with
  | none => .error .assertionFailed
  | some ac => .ok ac.can_tsumo_agari

def Bot.can_ron_agari (b : Bot) : Except Err Bool :=
  match b.action_candidate with
  | none => .error .assertionFailed
  | some ac => .ok ac.can_ron_agari

def Bot.can_ryukyoku (b : Bot) : Except Err Bool :=
  match b.action_candidate with
  | none => .error .assertionFailed
  | some ac => .ok ac.can_ryukyoku

def Bot.can_kakan (b : Bot) : Except Err Bool :=
  match b.action_candidate with
  | none => .error .assertionFailed
  | some ac => .ok ac.can_kakan

def Bot.can_daiminkan (b : Bot) : Except Err Bool :=
  match b.action_candidate with
  | none => .error .assertionFailed
  | some ac => .ok ac.can_daiminkan

def Bot.can_kan (b : Bot) : Except Err Bool :=
  match b.action_candidate with
  | none => .error .assertionFailed
  | some ac => .ok ac.can_kan

def Bot.can_ankan (b : Bot) : Except Err Bool :=
  match b.action_candidate with
  | none => .error .assertionFailed
  | some ac => .ok ac.can_ankan

def Bot.can_pon (b : Bot) : Except Err Bool :=
  match b.action_candidate with
  | none => .error .assertionFailed
  | some ac => .ok ac.can_pon

def Bot.can_chi (b : Bot) : Except Err Bool :=
  match b.action_candidate with
  | none => .error .assertionFailed
  | some ac => .ok ac.can_chi

def Bot.can_chi_low (b : Bot) : Except Err Bool :=
  match b.action_candidate with
  | none => .error .assertionFailed
  | some ac => .ok ac.can_chi_low

def Bot.can_chi_mid (b : Bot) : Except Err Bool :=
  match b.action_candidate with
  | none => .error .assertionFailed
  | some ac => .ok ac.can_chi_mid

def Bot.can_chi_high (b : Bot) : Except Err Bool :=
  match b.action_candidate with
  | none => .error .assertionFailed
  | some ac => .ok ac.can_chi_high

def Bot.can_act (b : Bot) : Except Err Bool :=
  match b.action_candidate with
  | none => .error .assertionFailed
  | some ac => .ok ac.can_act

def Bot.can_pass (b : Bot) : Except Err Bool :=
  match b.action_candidate with
  | none => .error .assertionFailed
  | some ac => .ok ac.can_pass

def Bot.target_actor (b : Bot) : Except Err Int :=
  match b.action_candidate with
  | none => .error .assertionFailed
  | some ac => .ok ac.target_actor

/-! ### Player-state accessors used by the claims -/

/-- `self.player_state.last_self_tsumo()` (per spec §4.3 it fails when no
draw has occurred this turn). -/
def Bot.last_self_tsumo (b : Bot) : Except Err String :=
  match b.player_state.last_self_tsumo with
  | none => .error (.engineError "no self tsumo")
  | some t => .ok t

/-- `self.player_state.last_kawa_tile()` (fails when no discard observed). -/
def Bot.last_kawa_tile (b : Bot) : Except Err String :=
  match b.player_state.last_kawa_tile with
  | none => .error (.engineError "no kawa tile")
  | some t => .ok t

def Bot.tehai_vec34 (b : Bot) : List Nat :=
  b.player_state.tehai

def Bot.akas_in_hand (b : Bot) : List Bool :=
  b.player_state.akas_in_hand

/-! ### JSON serialization helpers (`json.dumps` with compact separators) -/

def jsonStr (s : String) : String := "\"" ++ s ++ "\""

def jsonBool (b : Bool) : String := if b then "true" else "false"

/-- `json.dumps({"type": "none"}, separators=(",", ":"))`. -/
def noneJSON : String := "\x7b\"type\":\"none\"\x7d"

def dahaiJSON (pai : String) (actor : Int) (tsumogiri : Bool) : String :=
  "\x7b\"type\":\"dahai\",\"pai\":" ++ jsonStr pai ++ ",\"actor\":" ++
    toString actor ++ ",\"tsumogiri\":" ++ jsonBool tsumogiri ++ "\x7d"

def horaJSON (actor target : Int) (pai : String) : String :=
  "\x7b\"type\":\"hora\",\"actor\":" ++ toString actor ++ ",\"target\":" ++
    toString target ++ ",\"pai\":" ++ jsonStr pai ++ "\x7d"

def reachJSON (actor : Int) : String :=
  "\x7b\"type\":\"reach\",\"actor\":" ++ toString actor ++ "\x7d"

/-! ### Actions -/

/-- `Bot.action_discard`: serializes a dahai event; reads the engine's last
self-drawn tile to compute the `tsumogiri` flag. -/
def Bot.action_discard (b : Bot) (tile_str : String) : Except Err String := do
  let last ← b.last_self_tsumo
  pure (dahaiJSON tile_str b.player_id (tile_str == last))

/-- `Bot.action_nothing`. -/
def Bot.action_nothing (_b : Bot) : String := noneJSON

/-- `Bot.action_tsumo_agari`. -/
def Bot.action_tsumo_agari (b : Bot) : Except Err String := do
  let target ← b.target_actor
  let pai ← b.last_self_tsumo
  pure (horaJSON b.player_id target pai)

/-- `Bot.action_ron_agari`. -/
def Bot.action_ron_agari (b : Bot) : Except Err String := do
  let target ← b.target_actor
  let pai ← b.last_kawa_tile
  pure (horaJSON b.player_id target pai)

/-- `Bot.action_riichi`. -/
def Bot.action_riichi (b : Bot) : String := reachJSON b.player_id

/-- `Bot.think` (the default tsumogiri policy): if discarding is legal,
discard the last self-drawn tile, else do nothing. -/
def Bot.think (b : Bot) : Except Err String := do
  let cd ← b.can_discard
  if cd then
    let tile_str ← b.last_self_tsumo
    b.action_discard tile_str
  else
    pure (b.action_nothing)

/-! ### Symbolic hand listing (`Bot.tehai_mjai`) -/

def zi_map : List String := ["E", "S", "W", "N", "P", "F", "C"]

/-- One iteration of the `tehai_mjai` loop body over `(tile_idx, tile_count)`,
threading the five accumulator lists `(ms, ps, ss, zis, akas)`. -/
def tehaiMjaiStep (acc : List String × List String × List String ×
    List String × List String) (p : Nat × Nat) :
    List String × List String × List String × List String × List String :=
  let (ms, ps, ss, zis, akas) := acc
  let (tile_idx, tile_count) := p
  if tile_count ≠ 0 ∧ tile_idx = 4 then
    (ms, ps, ss, zis, akas ++ ["5mr"])
  else if tile_count ≠ 0 ∧ tile_idx = 4 + 9 then
    (ms, ps, ss, zis, akas ++ ["5pr"])
  else if tile_count ≠ 0 ∧ tile_idx = 4 + 18 then
    (ms, ps, ss, zis, akas ++ ["5sr"])
  else if tile_count ≠ 0 ∧ tile_idx < 9 then
    (ms ++ List.replicate tile_count (toString (tile_idx + 1) ++ "m"), ps, ss, zis, akas)
  else if tile_count ≠ 0 ∧ tile_idx < 18 then
    (ms, ps ++ List.replicate tile_count (toString (tile_idx - 9 + 1) ++ "p"), ss, zis, akas)
  else if tile_count ≠ 0 ∧ tile_idx < 27 then
    (ms, ps, ss ++ List.replicate tile_count (toString (tile_idx - 18 + 1) ++ "s"), zis, akas)
  else
    (ms, ps, ss, zis ++ List.replicate tile_count (zi_map.getD (tile_idx - 27) ""), akas)

/-- `Bot.tehai_mjai`: hand as a list of mjai tile symbols. -/
def Bot.tehai_mjai (b : Bot) : List String :=
  let acc := b.player_state.tehai.enum.foldl tehaiMjaiStep ([], [], [], [], [])
  let (ms, ps, ss, zis, akas) := acc
  ms ++ ps ++ ss ++ zis ++ akas

/-! ### The reactive loop (`Bot.react`, `Bot.start`)

`json.loads`, the engine's `update` and the (overridable) policy `think` are
passed as explicit collaborator functions.  `react` returns the bot's state
after whatever updates succeeded (the Python engine object is mutated in
place), the single response string, and the stderr log lines. -/

structure ReactResult where
  bot : Bot
  output : String
  errlog : List String
  deriving DecidableEq, Repr

/-- The lines printed to stderr by `react`'s exception handler. -/
def errLogLines (e : Err) (info : String) : List String :=
  ["===========================================",
   "Exception: " ++ e.msg,
   "Brief info:",
   info,
   ""]

/-- The `for event in events` loop in `react`: apply each event in order;
on the first engine failure stop, keeping the state and candidate produced so
far (no rollback). -/
def applyEvents (update : PlayerState → Event → Except Err (PlayerState × ActionCandidate)) :
    PlayerState → Option ActionCandidate → List Event →
    PlayerState × Option ActionCandidate × Option Err
  | ps, cand, [] => (ps, cand, none)
  | ps, cand, ev :: rest =>
    match update ps ev with
    | .ok (ps', c) => applyEvents update ps' (some c) rest
    | .error e => (ps, cand, some e)

/-- `Bot.react`: parse the input line, reject an empty event list, apply the
events in order, run the policy; any failure anywhere is caught, logged (with
the engine's brief info) and answered with the no-op action. -/
def Bot.react
    (parse : String → Except Err (List Event))
    (update : PlayerState → Event → Except Err (PlayerState × ActionCandidate))
    (think : Bot → Except Err String)
    (b : Bot) (input : String) : ReactResult :=
  match parse input with
  | .error e => ⟨b, noneJSON, errLogLines e b.player_state.brief_info⟩
  | .ok events =>
    if events.length = 0 then
      ⟨b, noneJSON,
        errLogLines (Err.valueError "Empty events") b.player_state.brief_info⟩
    else
      match applyEvents update b.player_state b.action_candidate events with
      | (ps', cand', some e) =>
        ⟨{ b with player_state := ps', action_candidate := cand' }, noneJSON,
          errLogLines e ps'.brief_info⟩
      | (ps', cand', none) =>
        let b' : Bot := { b with player_state := ps', action_candidate := cand' }
        match think b' with
        | .ok resp => ⟨b', resp, []⟩
        | .error e => ⟨b', noneJSON, errLogLines e ps'.brief_info⟩

/-- `sys.stdin.readline()` over a finite stream of remaining lines: at end of
input it returns the empty string (and keeps returning it). -/
def readline : List String → String × List String
  | [] => ("", [])
  | l :: ls => (l, ls)

/-- Python's `str.strip()`: drop leading and trailing whitespace. -/
def strip (s : String) : String :=
  ⟨((s.data.dropWhile Char.isWhitespace).reverse.dropWhile Char.isWhitespace).reverse⟩

/-- One iteration of the `while True` body in `Bot.start`: read a line, strip
it, react, emit the response.  The body is total: the loop contains no exit
condition, so every state (including exhausted input) takes another step. -/
def startStep
    (parse : String → Except Err (List Event))
    (update : PlayerState → Event → Except Err (PlayerState × ActionCandidate))
    (think : Bot → Except Err String)
    (b : Bot) (stream : List String) : Bot × List String × String :=
  let lr := readline stream
  let r := Bot.react parse update think b (strip lr.1)
  (r.bot, lr.2, r.output)

/-- `n` iterations of the `while True` loop, collecting the emitted output
lines (the loop itself never stops; `n` is an observation window). -/
def startRun
    (parse : String → Except Err (List Event))
    (update : PlayerState → Event → Except Err (PlayerState × ActionCandidate))
    (think : Bot → Except Err String) :
    Nat → Bot → List String → List String
  | 0, _, _ => []
  | n + 1, b, stream =>
    let s := startStep parse update think b stream
    s.2.2 :: startRun parse update think n s.1 s.2.1

/-- `Bot.start(player_id)`: overwrite the actor id, then enter the loop. -/
def Bot.start
    (parse : String → Except Err (List Event))
    (update : PlayerState → Event → Except Err (PlayerState × ActionCandidate))
    (think : Bot → Except Err String)
    (b : Bot) (pid : Int) (n : Nat) (stream : List String) : List String :=
  startRun parse update think n { b with player_id := pid } stream

/-- The `player_id` assignment at the top of `Bot.start`, in isolation. -/
def Bot.startInit (b : Bot) (pid : Int) : Bot :=
  { b with player_id := pid }

/-! ### Improving-tiles ranking (`Bot.find_improving_tiles`) -/

/-- The nested helper `_aka` in `find_improving_tiles`, exactly as written:
`"5s"` is checked against slot 4 (the m-suit five) and flag 0, the second
`"5p"` branch against slot 22 (the s-suit five) and flag 2, and no branch
handles `"5m"`. -/
def akaIfNeeded (b : Bot) (tile : String) : String :=
  if tile = "5s" ∧ b.tehai_vec34.getD 4 0 = 1 ∧ b.akas_in_hand.getD 0 false then
    "5sr"
  else if tile = "5p" ∧ b.tehai_vec34.getD (4 + 9) 0 = 1 ∧ b.akas_in_hand.getD 1 false then
    "5pr"
  else if tile = "5p" ∧ b.tehai_vec34.getD (4 + 18) 0 = 1 ∧ b.akas_in_hand.getD 2 false then
    "5pr"
  else
    tile

/-- Python's stable sort (`sorted(..., key=..., reverse=True)` keeps ties in
original order): insert an element before the first strictly-smaller key. -/
def insertDesc (key : α → Nat) (a : α) : List α → List α
  | [] => [a]
  | b :: bs => if key b ≤ key a then a :: b :: bs else b :: insertDesc key a bs

/-- Stable descending insertion sort by a `Nat` key, modelling
`sorted(candidates, key=lambda x: len(x[1]), reverse=True)`. -/
def sortByDesc (key : α → Nat) : List α → List α
  | [] => []
  | a :: as => insertDesc key a (sortByDesc key as)

/-- `Bot.tehai_tenhou`: the compact-notation rendering, delegated to the
external converter `conv` (`convert_tehai_vec34_as_tenhou`, outside src). -/
def Bot.tehai_tenhou (conv : List Nat → List Bool → String) (b : Bot) : String :=
  conv b.player_state.tehai b.player_state.akas_in_hand

/-- `Bot.find_improving_tiles`: call the external search on the compact hand
notation, sort descending by number of improving tiles (stably), then map
indices to mjai symbols (`tileOf` models `vec34_index_to_mjai_tile`) with the
`_aka` substitution on the discard symbol. -/
def Bot.find_improving_tiles
    (conv : List Nat → List Bool → String)
    (search : String → List (Nat × List Nat))
    (tileOf : Nat → String)
    (b : Bot) : List (String × List String) :=
  let candidates := search (b.tehai_tenhou conv)
  let sortedC := sortByDesc (fun x => x.2.length) candidates
  sortedC.map (fun p => (akaIfNeeded b (tileOf p.1), p.2.map tileOf))

/-! ### Concrete fixtures (deterministic stand-ins for the collaborators and
concrete game states, used to instantiate the theorems) -/

/-- A player state holding nothing of interest. -/
def psEmpty : PlayerState :=
  { tehai := List.replicate 34 0,
    akas_in_hand := [false, false, false],
    last_self_tsumo := none,
    last_kawa_tile := none,
    brief_info := "brief" }

/-- Two plain (non-red) copies of the m-suit five, no red-five flag set. -/
def psFiveM : PlayerState :=
  { psEmpty with
    tehai := [0,0,0,0,2,0,0,0,0, 0,0,0,0,0,0,0,0,0, 0,0,0,0,0,0,0,0,0, 0,0,0,0,0,0,0] }

/-- Exactly one m-suit five, flagged red. -/
def psAkaM : PlayerState :=
  { psEmpty with
    tehai := [0,0,0,0,1,0,0,0,0, 0,0,0,0,0,0,0,0,0, 0,0,0,0,0,0,0,0,0, 0,0,0,0,0,0,0],
    akas_in_hand := [true, false, false] }

/-- Exactly one s-suit five, flagged red; no p-suit five at all. -/
def psAkaS : PlayerState :=
  { psEmpty with
    tehai := [0,0,0,0,0,0,0,0,0, 0,0,0,0,0,0,0,0,0, 0,0,0,0,1,0,0,0,0, 0,0,0,0,0,0,0],
    akas_in_hand := [false, false, true] }

def botIdle : Bot :=
  { player_id := 0, player_state := psEmpty, action_candidate := none }

def botFiveM : Bot :=
  { player_id := 0, player_state := psFiveM, action_candidate := none }

def botAkaM : Bot :=
  { player_id := 0, player_state := psAkaM, action_candidate := none }

def botAkaS : Bot :=
  { player_id := 0, player_state := psAkaS, action_candidate := none }

/-- Candidate snapshot with every action illegal. -/
def acNone : ActionCandidate :=
  { can_discard := false, can_riichi := false, can_agari := false,
    can_tsumo_agari := false, can_ron_agari := false, can_ryukyoku := false,
    can_kakan := false, can_daiminkan := false, can_kan := false,
    can_ankan := false, can_pon := false, can_chi := false,
    can_chi_low := false, can_chi_mid := false, can_chi_high := false,
    can_act := false, can_pass := false, target_actor := 0 }

/-- Candidate snapshot where only discarding is legal. -/
def acDiscard : ActionCandidate :=
  { acNone with can_discard := true, can_act := true }

/-- A bot that has just drawn `"5m"` and may discard. -/
def botTsumo : Bot :=
  { player_id := 0,
    player_state := { psEmpty with last_self_tsumo := some "5m" },
    action_candidate := some acDiscard }

/-- Parser stand-in that rejects every line (as `json.loads` does on the empty
string read at end-of-input). -/
def parseFailFix : String → Except Err (List Event) :=
  fun _ => .error (.valueError "Expecting value")

/-- Engine stand-in that rejects every event. -/
def updateFailFix : PlayerState → Event → Except Err (PlayerState × ActionCandidate) :=
  fun _ _ => .error (.engineError "invalid event")

/-- Engine stand-in that rejects the event `"bad"` and otherwise records the
event text as the last self-draw. -/
def updateFix : PlayerState → Event → Except Err (PlayerState × ActionCandidate) :=
  fun ps ev =>
    if ev.raw = "bad" then .error (.engineError "bad event")
    else .ok ({ ps with last_self_tsumo := some ev.raw }, acDiscard)

/-- State reached after `updateFix` consumes the single event `"tsumo"`. -/
def psAfterPre : PlayerState :=
  { psEmpty with last_self_tsumo := some "tsumo" }

/-- Policy stand-in whose assertion always fails (an overriding `think` that
queries a legality accessor at the wrong time). -/
def thinkFailFix : Bot → Except Err String := fun _ => .error .assertionFailed

/-- Parser stand-in that accepts every line as the one-event batch
`["tsumo"]`. -/
def parseOkFix : String → Except Err (List Event) := fun _ => .ok [Event.mk "tsumo"]

/-! ## Lemmas about the stable descending sort -/

theorem mem_insertDesc {α : Type _} (key : α → Nat) (a x : α) (l : List α) :
    x ∈ insertDesc key a l ↔ x = a ∨ x ∈ l := by
  induction l with
  | nil => simp [insertDesc]
  | cons b bs ih =>
    simp only [insertDesc]
    split
    · simp [List.mem_cons]
    · simp only [List.mem_cons, ih]
      tauto

theorem pairwise_insertDesc {α : Type _} (key : α → Nat) (a : α) (l : List α)
    (h : List.Pairwise (fun x y => key y ≤ key x) l) :
    List.Pairwise (fun x y => key y ≤ key x) (insertDesc key a l) := by
  induction l with
  | nil => simp [insertDesc]
  | cons b bs ih =>
    rw [List.pairwise_cons] at h
    obtain ⟨hb, hbs⟩ := h
    simp only [insertDesc]
    split
    next hle =>
      refine List.pairwise_cons.mpr ⟨?_, List.pairwise_cons.mpr ⟨hb, hbs⟩⟩
      intro c hc
      rcases List.mem_cons.mp hc with rfl | hc
      · exact hle
      · exact le_trans (hb c hc) hle
    next hgt =>
      refine List.pairwise_cons.mpr ⟨?_, ih hbs⟩
      intro c hc
      rcases (mem_insertDesc key a c bs).mp hc with rfl | hc
      · omega
      · exact hb c hc

theorem filter_insertDesc_pos {α : Type _} (key : α → Nat) (a : α) (l : List α)
    (k : Nat) (ha : key a = k) :
    (insertDesc key a l).filter (fun x => key x == k) =
      a :: l.filter (fun x => key x == k) := by
  induction l with
  | nil => simp [insertDesc, ha]
  | cons b bs ih =>
    simp only [insertDesc]
    split
    next hle => simp [List.filter_cons, ha]
    next hgt =>
      have hbk : (key b == k) = false := by
        simp only [beq_eq_false_iff_ne, ne_eq]
        omega
      simp [List.filter_cons, hbk, ih]

theorem filter_insertDesc_neg {α : Type _} (key : α → Nat) (a : α) (l : List α)
    (k : Nat) (ha : ¬ key a = k) :
    (insertDesc key a l).filter (fun x => key x == k) =
      l.filter (fun x => key x == k) := by
  induction l with
  | nil => simp [insertDesc, ha]
  | cons b bs ih =>
    simp only [insertDesc]
    split
    · simp [List.filter_cons, ha]
    · simp [List.filter_cons, ih]

/-- Stability of the sort: elements of any fixed key keep exactly the input's
relative order (the sort only permutes across distinct keys). -/
theorem filter_sortByDesc {α : Type _} (key : α → Nat) (l : List α) (k : Nat) :
    (sortByDesc key l).filter (fun x => key x == k) =
      l.filter (fun x => key x == k) := by
  induction l with
  | nil => rfl
  | cons a as ih =>
    simp only [sortByDesc]
    by_cases ha : key a = k
    · rw [filter_insertDesc_pos key a _ k ha, ih, List.filter_cons]
      simp [ha]
    · rw [filter_insertDesc_neg key a _ k ha, ih, List.filter_cons]
      simp [ha]

/-- The sort's output is descending in the key. -/
theorem pairwise_sortByDesc {α : Type _} (key : α → Nat) (l : List α) :
    List.Pairwise (fun x y => key y ≤ key x) (sortByDesc key l) := by
  induction l with
  | nil => exact List.Pairwise.nil
  | cons a as ih => exact pairwise_insertDesc key a _ ih

/-! ## Claim theorems -/

/-- Claim C7: whatever pair sequence the external search routine returns,
`find_improving_tiles` hands back those pairs in descending order of the
number of improving tiles, and pairs with equal counts keep the relative
order the search produced (stability, phrased as: filtering the output to any
fixed count gives exactly the translation of the input filtered to that
count). -/
theorem c7_improving_tiles_sorted_stable
    (conv : List Nat → List Bool → String)
    (search : String → List (Nat × List Nat))
    (tileOf : Nat → String) (b : Bot) :
    List.Pairwise (fun x y : String × List String => y.2.length ≤ x.2.length)
      (b.find_improving_tiles conv search tileOf) ∧
    (∀ k : Nat,
      (b.find_improving_tiles conv search tileOf).filter
          (fun x : String × List String => x.2.length == k) =
        ((search (b.tehai_tenhou conv)).filter
            (fun x : Nat × List Nat => x.2.length == k)).map
          (fun p : Nat × List Nat => (akaIfNeeded b (tileOf p.1), p.2.map tileOf))) := by
  constructor
  · rw [Bot.find_improving_tiles, List.pairwise_map]
    refine (pairwise_sortByDesc (fun x : Nat × List Nat => x.2.length) _).imp ?_
    intro x y h
    simpa [List.length_map] using h
  · intro k
    rw [Bot.find_improving_tiles]
    rw [List.filter_map]
    have hp : ((fun x : String × List String => x.2.length == k) ∘
        (fun p : Nat × List Nat => (akaIfNeeded b (tileOf p.1), p.2.map tileOf))) =
        (fun x : Nat × List Nat => x.2.length == k) := by
      funext p
      simp [List.length_map]
    rw [hp, filter_sortByDesc]

/-- Claim C1: when an action-candidate snapshot exists and a self-draw is
recorded, the default `think` returns a `dahai` action for the last
self-drawn tile with `tsumogiri` true exactly when discarding is legal, and
the compact no-op action otherwise; and for any tile string `action_discard`
serializes `tsumogiri` as true iff the tile equals the last self-draw. -/
theorem c1_default_policy (b : Bot) (ac : ActionCandidate) (t : String)
    (hc : b.action_candidate = some ac)
    (ht : b.player_state.last_self_tsumo = some t) :
    (ac.can_discard = true → b.think = .ok (dahaiJSON t b.player_id true)) ∧
    (ac.can_discard = false → b.think = .ok noneJSON) ∧
    (∀ s : String, b.action_discard s = .ok (dahaiJSON s b.player_id (s == t))) := by
  refine ⟨fun h => ?_, fun h => ?_, fun s => ?_⟩
  · simp [Bot.think, Bot.can_discard, hc, h, Bot.last_self_tsumo, ht,
      Bot.action_discard, Except.bind, bind, pure, Except.pure]
  · simp [Bot.think, Bot.can_discard, hc, h, Bot.action_nothing,
      Except.bind, bind, pure, Except.pure]
  · simp [Bot.action_discard, Bot.last_self_tsumo, ht, Except.bind, bind, pure,
      Except.pure]

/-- Witness for C1 at a concrete bot that has drawn `"5m"` and may discard. -/
theorem c1_default_policy_witness :
    botTsumo.action_candidate = some acDiscard ∧
    botTsumo.player_state.last_self_tsumo = some "5m" ∧
    ((acDiscard.can_discard = true →
        botTsumo.think = .ok (dahaiJSON "5m" botTsumo.player_id true)) ∧
     (acDiscard.can_discard = false → botTsumo.think = .ok noneJSON) ∧
     (∀ s : String, botTsumo.action_discard s =
        .ok (dahaiJSON s botTsumo.player_id (s == "5m")))) :=
  ⟨rfl, rfl, c1_default_policy botTsumo acDiscard "5m" rfl rfl⟩

/-- Claim C2: for every input line, `react` yields exactly one response; on a
parse failure, an empty event batch, or a failure while applying events, the
response is the no-op action and the error log contains the facade's brief
state summary. -/
theorem c2_react_error_recovery
    (parse : String → Except Err (List Event))
    (update : PlayerState → Event → Except Err (PlayerState × ActionCandidate))
    (think : Bot → Except Err String) (b : Bot) (input : String) :
    (∀ e : Err, parse input = .error e →
      (Bot.react parse update think b input).output = noneJSON ∧
      (Bot.react parse update think b input).bot = b ∧
      b.player_state.brief_info ∈ (Bot.react parse update think b input).errlog) ∧
    (parse input = .ok [] →
      (Bot.react parse update think b input).output = noneJSON ∧
      (Bot.react parse update think b input).bot = b ∧
      b.player_state.brief_info ∈ (Bot.react parse update think b input).errlog) ∧
    (∀ (evs : List Event) (ps' : PlayerState) (c' : Option ActionCandidate) (e : Err),
      parse input = .ok evs →
      applyEvents update b.player_state b.action_candidate evs = (ps', c', some e) →
      (Bot.react parse update think b input).output = noneJSON ∧
      (Bot.react parse update think b input).bot.player_state.brief_info ∈
        (Bot.react parse update think b input).errlog) := by
  refine ⟨?_, ?_, ?_⟩
  · intro e he
    simp [Bot.react, he, errLogLines]
  · intro he
    simp [Bot.react, he, errLogLines]
  · intro evs ps' c' e hp ha
    cases evs with
    | nil => simp [applyEvents] at ha
    | cons ev rest =>
      simp [Bot.react, hp, ha, errLogLines]

/-- Witness for C2 on a line the parser rejects. -/
theorem c2_react_error_recovery_witness :
    parseFailFix "not json" = .error (.valueError "Expecting value") ∧
    ((Bot.react parseFailFix updateFailFix Bot.think botIdle "not json").output = noneJSON ∧
     (Bot.react parseFailFix updateFailFix Bot.think botIdle "not json").bot = botIdle ∧
     botIdle.player_state.brief_info ∈
       (Bot.react parseFailFix updateFailFix Bot.think botIdle "not json").errlog) :=
  ⟨rfl,
   (c2_react_error_recovery parseFailFix updateFailFix Bot.think botIdle "not json").1
     (Err.valueError "Expecting value") rfl⟩

/-- Claim C3 (code bug witness): with two plain m-suit fives in hand and no
red-five flag set, `tehai_mjai` returns the single red symbol `["5mr"]`: a
red symbol appears though its flag is unset, and the list length is 1 while
the counts sum to 2 — contradicting the claimed symbolic-listing contract
(and the method's own docstring, which lists a held plain five as `"5s"`). -/
theorem c3_tehai_mjai_bug :
    Bot.tehai_mjai botFiveM = ["5mr"] ∧
    botFiveM.player_state.akas_in_hand = [false, false, false] ∧
    botFiveM.player_state.tehai.sum = 2 ∧
    (Bot.tehai_mjai botFiveM).length ≠ botFiveM.player_state.tehai.sum := by
  decide

/-- Claim C4 (code bug witness): `_aka` never substitutes for `"5m"` even
when exactly one flagged-red m-suit five is held; it leaves `"5s"` alone even
when exactly one flagged-red s-suit five is held; and it rewrites `"5p"` to
`"5pr"` driven by the s-suit slot and flag while no p-suit five is held at
all.  The claimed contract (each suit checked against its own slot and flag)
fails on all three suits. -/
theorem c4_aka_bug :
    akaIfNeeded botAkaM "5m" = "5m" ∧
    botAkaM.tehai_vec34.getD 4 0 = 1 ∧
    botAkaM.akas_in_hand.getD 0 false = true ∧
    akaIfNeeded botAkaS "5s" = "5s" ∧
    botAkaS.tehai_vec34.getD (4 + 18) 0 = 1 ∧
    botAkaS.akas_in_hand.getD 2 false = true ∧
    akaIfNeeded botAkaS "5p" = "5pr" ∧
    botAkaS.tehai_vec34.getD (4 + 9) 0 = 0 ∧
    botAkaS.akas_in_hand.getD 1 false = false := by
  decide

/-- Counterexample to C5 as stated: with the input stream already exhausted,
the `while True` loop still performs an iteration — `readline` yields the
empty string, `react` treats it as a protocol error and the loop emits the
no-op line — instead of terminating, so end-of-input is not a terminal
state. -/
theorem c5_counterexample :
    Bot.start parseFailFix updateFailFix Bot.think botIdle 0 1 [] = [noneJSON] ∧
    Bot.start parseFailFix updateFailFix Bot.think botIdle 0 1 [] ≠ [] := by
  constructor
  · rfl
  · decide

/-- The loop emits one output line per iteration, forever, regardless of the
stream (helper for the amended C5). -/
theorem startRun_length
    (parse : String → Except Err (List Event))
    (update : PlayerState → Event → Except Err (PlayerState × ActionCandidate))
    (think : Bot → Except Err String) :
    ∀ (n : Nat) (b : Bot) (stream : List String),
      (startRun parse update think n b stream).length = n := by
  intro n
  induction n with
  | zero => intro b stream; rfl
  | succ n ih =>
    intro b stream
    simp only [startRun, List.length_cons]
    rw [ih]

/-- Past end-of-input every iteration reads `""`; if the parser rejects the
empty line, each iteration emits the no-op action and leaves the bot
unchanged (helper for the amended C5). -/
theorem startRun_eof
    (parse : String → Except Err (List Event))
    (update : PlayerState → Event → Except Err (PlayerState × ActionCandidate))
    (think : Bot → Except Err String) (e : Err) (he : parse "" = .error e) :
    ∀ (n : Nat) (b : Bot),
      startRun parse update think n b [] = List.replicate n noneJSON := by
  intro n
  induction n with
  | zero => intro b; rfl
  | succ n ih =>
    intro b
    have hs : strip "" = "" := rfl
    have hstep : startStep parse update think b [] = (b, [], noneJSON) := by
      simp [startStep, readline, hs, Bot.react, he]
    simp only [startRun, hstep, List.replicate]
    rw [ih]

/-- Claim C5 as amended: the read-respond loop started by `start(player_id)`
never terminates — it emits exactly one output line per iteration for any
number of iterations, even with the input stream exhausted; at end-of-input
`readline` returns empty strings which the parser rejects, so the loop keeps
emitting the no-op action indefinitely (shutdown comes only from outside the
loop). -/
theorem c5_amended_loop_never_halts
    (parse : String → Except Err (List Event))
    (update : PlayerState → Event → Except Err (PlayerState × ActionCandidate))
    (think : Bot → Except Err String) (b : Bot) (pid : Int) (n : Nat)
    (stream : List String) :
    (Bot.start parse update think b pid n stream).length = n ∧
    (∀ e : Err, parse "" = .error e →
      startRun parse update think n b [] = List.replicate n noneJSON) :=
  ⟨startRun_length parse update think n _ stream,
   fun e he => startRun_eof parse update think e he n b⟩

/-- Witness for the amended C5 at two iterations. -/
theorem c5_amended_loop_never_halts_witness :
    (Bot.start parseFailFix updateFailFix Bot.think botIdle 7 2 ["line"]).length = 2 ∧
    startRun parseFailFix updateFailFix Bot.think 2 botIdle [] =
      List.replicate 2 noneJSON :=
  ⟨(c5_amended_loop_never_halts parseFailFix updateFailFix Bot.think botIdle 7 2 ["line"]).1,
   (c5_amended_loop_never_halts parseFailFix updateFailFix Bot.think botIdle 7 2 ["line"]).2
     (Err.valueError "Expecting value") rfl⟩

/-- Claim C6: before any snapshot exists, every action-candidate-derived
accessor fails with the assertion (precondition) error — never a default
value — and that error is distinct from the engine-failure and value-error
variants. -/
theorem c6_precondition_accessors (b : Bot) (h : b.action_candidate = none) :
    b.can_discard = .error .assertionFailed ∧
    b.can_riichi = .error .assertionFailed ∧
    b.can_agari = .error .assertionFailed ∧
    b.can_tsumo_agari = .error .assertionFailed ∧
    b.can_ron_agari = .error .assertionFailed ∧
    b.can_ryukyoku = .error .assertionFailed ∧
    b.can_kakan = .error .assertionFailed ∧
    b.can_daiminkan = .error .assertionFailed ∧
    b.can_kan = .error .assertionFailed ∧
    b.can_ankan = .error .assertionFailed ∧
    b.can_pon = .error .assertionFailed ∧
    b.can_chi = .error .assertionFailed ∧
    b.can_chi_low = .error .assertionFailed ∧
    b.can_chi_mid = .error .assertionFailed ∧
    b.can_chi_high = .error .assertionFailed ∧
    b.can_act = .error .assertionFailed ∧
    b.can_pass = .error .assertionFailed ∧
    b.target_actor = .error .assertionFailed ∧
    (∀ m : String, (Err.assertionFailed ≠ Err.engineError m) ∧
      (Err.assertionFailed ≠ Err.valueError m)) := by
  refine ⟨?_, ?_, ?_, ?_, ?_, ?_, ?_, ?_, ?_, ?_, ?_, ?_, ?_, ?_, ?_, ?_, ?_, ?_, ?_⟩ <;>
    simp [Bot.can_discard, Bot.can_riichi, Bot.can_agari, Bot.can_tsumo_agari,
      Bot.can_ron_agari, Bot.can_ryukyoku, Bot.can_kakan, Bot.can_daiminkan,
      Bot.can_kan, Bot.can_ankan, Bot.can_pon, Bot.can_chi, Bot.can_chi_low,
      Bot.can_chi_mid, Bot.can_chi_high, Bot.can_act, Bot.can_pass,
      Bot.target_actor, h]

/-- Witness for C6 at a freshly constructed bot. -/
theorem c6_precondition_accessors_witness :
    botIdle.action_candidate = none ∧
    botIdle.can_discard = .error .assertionFailed :=
  ⟨rfl, (c6_precondition_accessors botIdle rfl).1⟩

/-- Claim C8: `react` never lets a failure escape — its output is always
either the no-op action or a response the policy returned successfully; in
particular when the policy itself fails (for any overriding `think` and any
error, assertion failures included), the output is the no-op action. -/
theorem c8_react_silences_policy
    (parse : String → Except Err (List Event))
    (update : PlayerState → Event → Except Err (PlayerState × ActionCandidate))
    (think : Bot → Except Err String) (b : Bot) (input : String) :
    ((Bot.react parse update think b input).output = noneJSON ∨
      think (Bot.react parse update think b input).bot =
        .ok (Bot.react parse update think b input).output) ∧
    (∀ (evs : List Event) (ps' : PlayerState) (c' : Option ActionCandidate) (e : Err),
      parse input = .ok evs →
      applyEvents update b.player_state b.action_candidate evs = (ps', c', none) →
      think { b with player_state := ps', action_candidate := c' } = .error e →
      (Bot.react parse update think b input).output = noneJSON) := by
  constructor
  · cases hp : parse input with
    | error e => left; simp [Bot.react, hp]
    | ok evs =>
      cases evs with
      | nil => left; simp [Bot.react, hp]
      | cons ev rest =>
        rcases hA : applyEvents update b.player_state b.action_candidate (ev :: rest) with
          ⟨ps', c', oe⟩
        cases oe with
        | some e => left; simp [Bot.react, hp, hA]
        | none =>
          cases hT : think { b with player_state := ps', action_candidate := c' } with
          | ok resp => right; simp [Bot.react, hp, hA, hT]
          | error e => left; simp [Bot.react, hp, hA, hT]
  · intro evs ps' c' e hp hA hT
    cases evs with
    | nil => simp [Bot.react, hp]
    | cons ev rest => simp [Bot.react, hp, hA, hT]

/-- Witness for C8: a policy whose assertion fails is silenced to the no-op
response. -/
theorem c8_react_silences_policy_witness :
    parseOkFix "[]" = .ok [Event.mk "tsumo"] ∧
    applyEvents updateFix botIdle.player_state botIdle.action_candidate
      [Event.mk "tsumo"] = (psAfterPre, some acDiscard, none) ∧
    thinkFailFix { botIdle with
      player_state := psAfterPre, action_candidate := some acDiscard } =
        .error .assertionFailed ∧
    (Bot.react parseOkFix updateFix thinkFailFix botIdle "[]").output = noneJSON :=
  ⟨rfl, rfl, rfl,
   (c8_react_silences_policy parseOkFix updateFix thinkFailFix botIdle "[]").2
     [Event.mk "tsumo"] psAfterPre (some acDiscard) .assertionFailed rfl rfl rfl⟩

/-- Splitting lemma for the event loop: a batch whose prefix succeeds and
whose next event is rejected ends with exactly the prefix's state and
candidate, the error recorded, and the remaining events not applied. -/
theorem applyEvents_append_error
    (update : PlayerState → Event → Except Err (PlayerState × ActionCandidate))
    (pre : List Event) (ev : Event) (rest : List Event)
    (ps0 ps1 : PlayerState) (c0 c1 : Option ActionCandidate) (e : Err)
    (hpre : applyEvents update ps0 c0 pre = (ps1, c1, none))
    (hev : update ps1 ev = .error e) :
    applyEvents update ps0 c0 (pre ++ ev :: rest) = (ps1, c1, some e) := by
  induction pre generalizing ps0 c0 with
  | nil =>
    simp only [applyEvents, Prod.mk.injEq] at hpre
    obtain ⟨rfl, rfl, -⟩ := hpre
    simp [applyEvents, hev]
  | cons ev0 pre ih =>
    cases hu : update ps0 ev0 with
    | ok pc =>
      obtain ⟨psn, cn⟩ := pc
      simp only [List.cons_append, applyEvents, hu] at hpre ⊢
      exact ih _ _ hpre
    | error e0 =>
      simp only [applyEvents, hu, Prod.mk.injEq] at hpre
      exact absurd hpre.2.2 (by simp)

/-- Claim C9: event application is not atomic — when the events after a
successful prefix hit a rejected event, the prefix's updates persist (no
rollback), `react` answers with the no-op response, its bot keeps the
prefix's state and the candidate snapshot of the last successful update, and
subsequent accessor queries observe that retained snapshot. -/
theorem c9_partial_application
    (update : PlayerState → Event → Except Err (PlayerState × ActionCandidate))
    (pre : List Event) (ev : Event) (rest : List Event)
    (ps0 ps1 : PlayerState) (c0 c1 : Option ActionCandidate) (e : Err)
    (hpre : applyEvents update ps0 c0 pre = (ps1, c1, none))
    (hev : update ps1 ev = .error e) :
    applyEvents update ps0 c0 (pre ++ ev :: rest) = (ps1, c1, some e) ∧
    (∀ (parse : String → Except Err (List Event))
       (think : Bot → Except Err String) (b : Bot) (input : String),
      b.player_state = ps0 → b.action_candidate = c0 →
      parse input = .ok (pre ++ ev :: rest) →
      Bot.react parse update think b input =
        ⟨{ b with player_state := ps1, action_candidate := c1 }, noneJSON,
          errLogLines e ps1.brief_info⟩ ∧
      (∀ ac : ActionCandidate, c1 = some ac →
        ({ b with player_state := ps1, action_candidate := c1 } : Bot).can_discard =
          .ok ac.can_discard)) := by
  have key := applyEvents_append_error update pre ev rest ps0 ps1 c0 c1 e hpre hev
  refine ⟨key, ?_⟩
  intro parse think b input hb hc hp
  constructor
  · rw [← hb, ← hc] at key
    simp [Bot.react, hp, key]
  · intro ac hac
    subst hac
    simp [Bot.can_discard]

/-- Witness for C9: a two-event batch whose second event is rejected keeps
the first event's effect. -/
theorem c9_partial_application_witness :
    applyEvents updateFix psEmpty none (Event.mk "tsumo" :: Event.mk "bad" :: []) =
      (psAfterPre, some acDiscard, some (Err.engineError "bad event")) :=
  (c9_partial_application updateFix [Event.mk "tsumo"] (Event.mk "bad") []
    psEmpty psAfterPre none (some acDiscard) (Err.engineError "bad event")
    rfl rfl).1

/-- Claim C10: `start`'s id assignment overwrites only `player_id` and leaves
the constructed `PlayerState` (built from the constructor's seat id) and the
candidate snapshot untouched; afterwards the dahai, reach and hora actions
carry the new actor id while tile data still comes from the original state. -/
theorem c10_start_overwrites_only_player_id
    (mkPS : Int → PlayerState) (pid pid' : Int) :
    ((Bot.init mkPS pid).startInit pid').player_id = pid' ∧
    ((Bot.init mkPS pid).startInit pid').player_state = mkPS pid ∧
    ((Bot.init mkPS pid).startInit pid').action_candidate =
      (Bot.init mkPS pid).action_candidate ∧
    (∀ b : Bot, (b.startInit pid').player_state = b.player_state ∧
      (b.startInit pid').player_id = pid' ∧
      (b.startInit pid').action_candidate = b.action_candidate) ∧
    (∀ (b : Bot) (t last : String), b.player_state.last_self_tsumo = some last →
      (b.startInit pid').action_discard t = .ok (dahaiJSON t pid' (t == last))) ∧
    (∀ b : Bot, (b.startInit pid').action_riichi = reachJSON pid') ∧
    (∀ (b : Bot) (ac : ActionCandidate) (last : String),
      b.action_candidate = some ac → b.player_state.last_self_tsumo = some last →
      (b.startInit pid').action_tsumo_agari =
        .ok (horaJSON pid' ac.target_actor last)) := by
  refine ⟨rfl, rfl, rfl, fun b => ⟨rfl, rfl, rfl⟩, ?_, fun b => rfl, ?_⟩
  · intro b t last hl
    simp [Bot.startInit, Bot.action_discard, Bot.last_self_tsumo, hl,
      Except.bind, bind, pure, Except.pure]
  · intro b ac last hac hl
    simp [Bot.startInit, Bot.action_tsumo_agari, Bot.target_actor, hac,
      Bot.last_self_tsumo, hl, Except.bind, bind, pure, Except.pure]

/-- Witness for C10 re-seating a bot from seat 0 to seat 3. -/
theorem c10_start_overwrites_only_player_id_witness :
    ((Bot.init (fun _ => psEmpty) 0).startInit 3).player_id = 3 ∧
    ((Bot.init (fun _ => psEmpty) 0).startInit 3).player_state = psEmpty ∧
    (botTsumo.startInit 3).action_discard "1p" = .ok (dahaiJSON "1p" 3 ("1p" == "5m")) ∧
    (botTsumo.startInit 3).action_tsumo_agari =
      .ok (horaJSON 3 acDiscard.target_actor "5m") :=
  ⟨(c10_start_overwrites_only_player_id (fun _ => psEmpty) 0 3).1,
   (c10_start_overwrites_only_player_id (fun _ => psEmpty) 0 3).2.1,
   (c10_start_overwrites_only_player_id (fun _ => psEmpty) 0 3).2.2.2.2.1
     botTsumo "1p" "5m" rfl,
   (c10_start_overwrites_only_player_id (fun _ => psEmpty) 0 3).2.2.2.2.2.2
     botTsumo acDiscard "5m" rfl rfl⟩

end Mjai
